import Mathlib

/-!
Verification of the network device polling and discovery engine
(`sndvt-back`): a shallow embedding of the monitoring coordinator, the
protocol-monitor base class, the SNMP value parsers, the device
classifier and the scan lifecycle manager, with theorems settling the
specification claims about them.

Conventions of the embedding:
* Python machine floats that only ever hold exact decimal literals and
  their sums are modelled as rationals (`ℚ`).
* A Python call that may raise is modelled as `PyResult α`:
  `.ok a` for a normal return, `.exc msg` for a raised exception
  carrying `str(e)`.
* Python dicts keyed by strings are modelled as association lists with
  the helpers `alookup` / `aset` / `aremove` below.
* Wall-clock instants (`time.time()`, `datetime.now()`) are passed in
  explicitly as parameters, so the embedded functions stay pure.
-/

/-- Result of a Python call: normal return, or a raised exception
carrying its message. -/
inductive PyResult (α : Type) where
  | ok (a : α)
  | exc (msg : String)
deriving DecidableEq

namespace PyResult

def isExc {α : Type} : PyResult α → Bool
  | .ok _ => false
  | .exc _ => true

end PyResult

/-- Association-list lookup, modelling `d.get(k)` / `d[k]` on a Python
dict keyed by strings (first binding wins; our `aset` keeps keys
unique). -/
def alookup {α : Type} : List (String × α) → String → Option α
  | [], _ => none
  | (k, v) :: rest, key => if k = key then some v else alookup rest key

/-- Association-list update, modelling `d[k] = v` on a Python dict:
replaces the binding for `k` if present, else appends it. -/
def aset {α : Type} : List (String × α) → String → α → List (String × α)
  | [], key, v => [(key, v)]
  | (k, w) :: rest, key, v =>
      if k = key then (key, v) :: rest else (k, w) :: aset rest key v

/-- Association-list removal, modelling `del d[k]` / `d.pop(k, None)`. -/
def aremove {α : Type} : List (String × α) → String → List (String × α)
  | [], _ => []
  | (k, w) :: rest, key =>
      if k = key then rest else (k, w) :: aremove rest key

theorem alookup_aset_self {α : Type} (l : List (String × α)) (k : String) (v : α) :
    alookup (aset l k v) k = some v := by
  induction l with
  | nil => simp [aset, alookup]
  | cons hd tl ih =>
      obtain ⟨k', v'⟩ := hd
      by_cases h : k' = k
      · simp [aset, alookup, h]
      · simp [aset, alookup, h, ih]

theorem alookup_aset_ne {α : Type} (l : List (String × α)) (k k' : String) (v : α)
    (h : k ≠ k') : alookup (aset l k v) k' = alookup l k' := by
  induction l with
  | nil => simp [aset, alookup, h]
  | cons hd tl ih =>
      obtain ⟨k0, v0⟩ := hd
      by_cases h0 : k0 = k
      · subst h0
        simp [aset, alookup, h]
      · simp [aset, alookup, h0, ih]

/-! ## Data model (`app/device_monitoring/utils/base.py`) -/

namespace Base

/-- `InterfaceStatus` enum from `utils/base.py`. -/
inductive InterfaceStatus where
  | up
  | down
  | admin_down
  | testing
  | unknown
deriving DecidableEq

/-- `InterfaceInfo` dataclass from `utils/base.py` (`__post_init__`
replaces a `None` IP list with `[]`, so the embedded field is a plain
list). -/
structure InterfaceInfo where
  name : String
  description : String
  status : InterfaceStatus
  admin_status : InterfaceStatus
  speed : Option ℤ := none
  mtu : Option ℤ := none
  mac_address : Option String := none
  ip_addresses : List String := []
  in_octets : Option ℤ := none
  out_octets : Option ℤ := none
  in_errors : Option ℤ := none
  out_errors : Option ℤ := none
  last_change : Option ℚ := none
deriving DecidableEq

/-- `DeviceHealth` dataclass from `utils/base.py` (`__post_init__`
replaces `None` load-average / disk-usage with empty collections). -/
structure DeviceHealth where
  cpu_usage : Option ℚ := none
  memory_usage : Option ℚ := none
  memory_total : Option ℤ := none
  memory_used : Option ℤ := none
  temperature : Option ℚ := none
  uptime : Option ℤ := none
  load_average : List ℚ := []
  disk_usage : List (String × ℚ) := []
deriving DecidableEq

/-- `DeviceHealth()` with no arguments: every metric field unset. -/
def DeviceHealth.empty : DeviceHealth := {}

/-- `DeviceStatus` dataclass from `utils/base.py`. `last_seen` defaults
to `time.time()` in `__post_init__`; the embedding passes that instant
explicitly wherever a `DeviceStatus` is built. -/
structure DeviceStatus where
  device_id : String
  reachable : Bool
  response_time : Option ℚ := none
  last_seen : Option ℚ := none
  error_message : Option String := none
  health : Option DeviceHealth := none
  interfaces : List InterfaceInfo := []
  uptime : Option ℤ := none
deriving DecidableEq

/-- The observable behaviour of one concrete monitor during one
`get_device_status` call: what each abstract method returns or raises. -/
structure MonitorBehavior where
  test_connection : PyResult Bool
  get_health_metrics : PyResult DeviceHealth
  get_interfaces : PyResult (List InterfaceInfo)

/-- `BaseMonitor.get_device_status` from `utils/base.py`: times
`test_connection`; unreachable on `False`; on success calls
`get_health_metrics` then `get_interfaces` and assembles the composite.
The single `try/except` wraps all three calls, so an exception from any
of them falls to the same handler, which returns an unreachable status
carrying `str(e)`. `rt` is the measured response time in ms and `now`
the `time.time()` instant used for `last_seen`. -/
def get_device_status (device_id : String) (m : MonitorBehavior)
    (rt : ℚ) (now : ℚ) : DeviceStatus :=
  match m.test_connection with
  | .exc e =>
      { device_id := device_id, reachable := false, response_time := some rt,
        last_seen := some now, error_message := some e }
  | .ok false =>
      { device_id := device_id, reachable := false, response_time := some rt,
        last_seen := some now, error_message := some "Device unreachable" }
  | .ok true =>
      match m.get_health_metrics with
      | .exc e =>
          { device_id := device_id, reachable := false, response_time := some rt,
            last_seen := some now, error_message := some e }
      | .ok health =>
          match m.get_interfaces with
          | .exc e =>
              { device_id := device_id, reachable := false, response_time := some rt,
                last_seen := some now, error_message := some e }
          | .ok interfaces =>
              { device_id := device_id, reachable := true, response_time := some rt,
                last_seen := some now, health := some health,
                interfaces := interfaces, uptime := health.uptime }

/-- Outcome of `BaseMonitor._retry_operation`: the operation's value or
the last raised error, together with the total seconds slept on backoff
between attempts. -/
inductive RetryOutcome (α : Type) where
  | success (a : α) (totalSleep : ℕ)
  | failure (lastError : String) (totalSleep : ℕ)
deriving DecidableEq

/-- The loop body of `BaseMonitor._retry_operation`: attempt number
`attempt` of `retry_count` runs `op attempt`; on an exception it sleeps
`2 ^ attempt` seconds and continues unless this was the final attempt,
in which case the last exception is re-raised. `slept` accumulates the
backoff sleeps so far. -/
def retry_go {α : Type} (op : ℕ → PyResult α) (retry_count : ℕ) :
    ℕ → ℕ → RetryOutcome α
  | attempt, slept =>
      match op attempt with
      | .ok a => .success a slept
      | .exc e =>
          if h : attempt < retry_count - 1 then
            retry_go op retry_count (attempt + 1) (slept + 2 ^ attempt)
          else
            .failure e slept
  termination_by attempt _ => retry_count - attempt
  decreasing_by omega

/-- `BaseMonitor._retry_operation(operation)` with `self.retry_count =
retry_count ≥ 1`: runs the attempt loop from attempt 0 with no sleep
accumulated. (`op k` is the result of the k-th invocation of the
operation.) -/
def retry_operation {α : Type} (op : ℕ → PyResult α) (retry_count : ℕ) :
    RetryOutcome α :=
  retry_go op retry_count 0 0

end Base

/-! ## SNMP value parsers
(`app/device_monitoring/clients/snmp_client.py`) -/

namespace Snmp

/-- `SNMPClient._parse_uptime`: `int(timeticks) // 100` guarded by the
truthiness of `timeticks` (`0` is falsy, so zero ticks yield `None`).
`//` on Python ints is floor division, `Int.fdiv` here. -/
def parse_uptime (timeticks : ℤ) : Option ℤ :=
  if timeticks = 0 then none else some (Int.fdiv timeticks 100)

/-- `SNMPClient._parse_speed`: `int(speed_value) // 1000000` guarded by
`speed_value and int(speed_value) > 0` (falsy or non-positive values
yield `None`). -/
def parse_speed (speed_value : ℤ) : Option ℤ :=
  if speed_value = 0 then none
  else if speed_value > 0 then some (Int.fdiv speed_value 1000000)
  else none

end Snmp

/-! ## Scan lifecycle manager and port-based classifier
(`app/device_monitoring/services/advanced_discovery.py`) -/

namespace AdvDisc

/-- A discovered-device dict as built by the `_process_*_results`
helpers of `AdvancedDiscoveryService`. -/
structure DiscDevice where
  ip : String
  hostname : Option String := none
  response_time : Option ℚ := none
  open_ports : List ℕ := []
  suggested_protocols : List String := []
  system_description : Option String := none
  device_type : String := "unknown"
  snmp_community : Option String := none
  confidence_score : ℚ := 0
deriving DecidableEq

/-- `ScanResult.__init__`: the fields of a scan record. Timestamps
(ISO strings produced by `datetime.now().isoformat()`) are modelled as
naturals. -/
structure ScanResult where
  scan_id : String
  network : String
  scan_type : String
  status : String
  started_at : ℕ
  completed_at : Option ℕ := none
  total_hosts : ℕ := 0
  scanned_hosts : ℕ := 0
  discovered_devices : List DiscDevice := []
  error_message : Option String := none
  scan_name : Option String := none
deriving DecidableEq

/-- `ScanResult(scan_id, network, scan_type)`: a fresh record starts
with `status = "running"` and empty results. -/
def mkScanResult (scan_id network scan_type : String) (now : ℕ) : ScanResult :=
  { scan_id := scan_id, network := network, scan_type := scan_type,
    status := "running", started_at := now }

/-- Service state: the in-memory `active_scans` table and the persisted
per-scan JSON records on disk (`results_dir`), both keyed by scan id. -/
structure AdvState where
  active_scans : List (String × ScanResult)
  disk : List (String × ScanResult)
deriving DecidableEq

/-- The per-record computation inside `_load_scan_history`'s loop:
a loaded record still marked `running` is rewritten to `failed` with
the message `"System restart during scan"`. The loop computes this on
a local variable and then discards it — see `load_scan_history`. -/
def reclassify_running (r : ScanResult) : ScanResult :=
  if r.status = "running" then
    { r with status := "failed",
             error_message := some "System restart during scan" }
  else r

/-- `AdvancedDiscoveryService.__init__` + `_load_scan_history`: the
service starts with an empty `active_scans` table and reads every
persisted record. The loop builds `reclassify_running` of each loaded
record into a local `scan_result` that is never stored back to
`active_scans` nor written to disk, so startup leaves both the table
empty and the files untouched. -/
def load_scan_history (disk : List (String × ScanResult)) : AdvState :=
  { active_scans := [], disk := disk }

/-- `AdvancedDiscoveryService.get_scan_status`: the active table first,
then the persisted record on disk, else `None`. -/
def get_scan_status (st : AdvState) (scan_id : String) : Option ScanResult :=
  match alookup st.active_scans scan_id with
  | some r => some r
  | none => alookup st.disk scan_id

/-- `AdvancedDiscoveryService.start_discovery_scan`: generates a scan
id, builds a `ScanResult` (status `"running"`), stores it in
`active_scans` and launches `_execute_scan` in the background. No
validation of `network` is performed before registration; the fresh id
is returned unconditionally. -/
def start_discovery_scan (st : AdvState) (network scan_type : String)
    (scan_id : String) (scan_name : Option String) (now : ℕ) :
    String × AdvState :=
  let r := { mkScanResult scan_id network scan_type now with scan_name := scan_name }
  (scan_id, { st with active_scans := aset st.active_scans scan_id r })

/-- The terminal update `_execute_scan` applies to its scan record:
on a normal run the totals and devices are filled in and the status
becomes `"completed"`; on any exception the status becomes `"failed"`
with the exception's message. Either way `completed_at` is stamped. -/
def execute_scan_result (r : ScanResult)
    (outcome : PyResult (ℕ × ℕ × List DiscDevice)) (now : ℕ) : ScanResult :=
  match outcome with
  | .ok (total, scanned, devs) =>
      { r with total_hosts := total, scanned_hosts := scanned,
               discovered_devices := devs, status := "completed",
               completed_at := some now }
  | .exc e =>
      { r with status := "failed", error_message := some e,
               completed_at := some now }

/-- The state transition of `_execute_scan` up to its terminal status:
the shared record in `active_scans` is mutated in place to its terminal
form, and `_save_scan_result` writes it to disk when `save_results` is
set (on both the completed and the failed path). -/
def finish_scan (st : AdvState) (scan_id : String)
    (outcome : PyResult (ℕ × ℕ × List DiscDevice)) (save_results : Bool)
    (now : ℕ) : AdvState :=
  match alookup st.active_scans scan_id with
  | none => st
  | some r =>
      let r' := execute_scan_result r outcome now
      { active_scans := aset st.active_scans scan_id r',
        disk := if save_results then aset st.disk scan_id r' else st.disk }

/-- The tail of `_execute_scan`'s exception handler: after
`asyncio.sleep(300)` the failed job is deleted from `active_scans`
(this eviction exists only on the failure path; completed jobs are
never evicted). -/
def cleanup_after_failure (st : AdvState) (scan_id : String) : AdvState :=
  { st with active_scans := aremove st.active_scans scan_id }

/-- `AdvancedDiscoveryService._suggest_protocols_from_ports`. -/
def suggest_protocols_from_ports (open_ports : List ℕ) : List String :=
  let protocols :=
    (if 22 ∈ open_ports then ["ssh"] else []) ++
    (if 23 ∈ open_ports then ["telnet"] else []) ++
    (if 161 ∈ open_ports then ["snmp"] else []) ++
    (if 80 ∈ open_ports ∨ 443 ∈ open_ports ∨ 8080 ∈ open_ports then ["rest"] else [])
  if protocols.isEmpty then ["ping"] else protocols

/-- `AdvancedDiscoveryService._guess_device_type_from_ports`. -/
def guess_device_type_from_ports (open_ports : List ℕ) : String :=
  if 161 ∈ open_ports then
    if 22 ∈ open_ports ∨ 23 ∈ open_ports then "router" else "switch"
  else if 80 ∈ open_ports ∨ 443 ∈ open_ports then "server"
  else if 22 ∈ open_ports ∧ open_ports.length ≤ 2 then "firewall"
  else "generic"

/-- `AdvancedDiscoveryService._calculate_confidence_from_ports`:
`0.2` for an empty port list, else `0.3` base plus the per-port
bonuses, capped at `1.0`. -/
def calculate_confidence_from_ports (open_ports : List ℕ) : ℚ :=
  if open_ports.isEmpty then 0.2
  else
    let score : ℚ := 0.3
    let score := score + (if 161 ∈ open_ports then 0.3 else 0)
    let score := score + (if 22 ∈ open_ports then 0.2 else 0)
    let score := score + (if 23 ∈ open_ports then 0.1 else 0)
    let score := score + (if 80 ∈ open_ports ∨ 443 ∈ open_ports then 0.2 else 0)
    min score 1

end AdvDisc

/-! ## Port/description classifier (`device_monitor/discovery.py`) -/

namespace DMDiscovery

/-- Truthy lookup `port_scan.get(p)` on the per-host port→open dict. -/
def portOpen (port_scan : List (ℕ × Bool)) (p : ℕ) : Bool :=
  match port_scan.lookup p with
  | some b => b
  | none => false

/-- Boolean prefix test on character lists (helper for the `in`
substring operator). -/
def startsWith : List Char → List Char → Bool
  | [], _ => true
  | _ :: _, [] => false
  | a :: as, b :: bs => a = b && startsWith as bs

/-- Boolean substring test on character lists: Python's `needle in
haystack` on strings. -/
def substringOf (needle : List Char) : List Char → Bool
  | [] => needle.isEmpty
  | b :: bs => startsWith needle (b :: bs) || substringOf needle bs

/-- `any(keyword in desc for keyword in kws)`: substring test of each
keyword against the lower-cased description. -/
def containsAny (desc : String) (kws : List String) : Bool :=
  kws.any (fun k => substringOf k.toList desc.toList)

/-- `NetworkDiscovery._detect_device_type`: keyword-match the SNMP
system description first (when present), else fall back to port-based
detection. Note the port fallback has no firewall case and its server
case requires SSH as well as HTTP/HTTPS. -/
def detect_device_type (port_scan : List (ℕ × Bool))
    (system_description : Option String) : String :=
  match system_description with
  | some d =>
      let desc := d.toLower
      if containsAny desc ["router", "cisco", "juniper"] then "router"
      else if containsAny desc ["switch", "catalyst"] then "switch"
      else if containsAny desc ["firewall", "fortigate", "palo alto"] then "firewall"
      else if containsAny desc ["access point", "ap", "wireless"] then "access_point"
      else if containsAny desc ["server", "linux", "windows"] then "server"
      else fallback port_scan
  | none => fallback port_scan
where
  fallback (port_scan : List (ℕ × Bool)) : String :=
    if portOpen port_scan 161 then
      if portOpen port_scan 22 ∨ portOpen port_scan 23 then "router" else "switch"
    else if portOpen port_scan 22 ∧ (portOpen port_scan 80 ∨ portOpen port_scan 443) then
      "server"
    else "generic"

/-- `NetworkDiscovery._suggest_protocols` (defaults to `["snmp"]`, not
`["ping"]`, when nothing matched). `snmp_available` is the truthiness
of `system_info.get('snmp_available')`. -/
def suggest_protocols (port_scan : List (ℕ × Bool)) (snmp_available : Bool) :
    List String :=
  let protocols :=
    (if snmp_available ∨ portOpen port_scan 161 then ["snmp"] else []) ++
    (if portOpen port_scan 22 then ["ssh"] else []) ++
    (if portOpen port_scan 80 ∨ portOpen port_scan 443 ∨
        portOpen port_scan 8080 ∨ portOpen port_scan 8443 then ["rest"] else [])
  if protocols.isEmpty then ["snmp"] else protocols

end DMDiscovery

/-! ## Discovery service with input validation
(`app/device_discovery/services/discovery_service.py`) -/

namespace DiscSvc

/-- Split a character list at every occurrence of `sep` (the behaviour
of Python's `str.split(sep)` for a one-character separator). -/
def splitOnChar (sep : Char) : List Char → List (List Char)
  | [] => [[]]
  | c :: rest =>
      match splitOnChar sep rest with
      | [] => [[]]
      | g :: gs => if c = sep then [] :: g :: gs else (c :: g) :: gs

/-- One octet of a dotted-quad IPv4 address, per the stdlib `ipaddress`
rules used by `ip_network`: decimal digits only, at most three of them,
no leading zero, value at most 255. -/
def parseOctet (cs : List Char) : Option ℕ :=
  if cs.isEmpty then none
  else if ¬ cs.all Char.isDigit then none
  else if cs.length > 1 ∧ cs.headI = '0' then none
  else if cs.length > 3 then none
  else
    let n := cs.foldl (fun acc c => acc * 10 + (c.toNat - 48)) 0
    if n ≤ 255 then some n else none

/-- A dotted-quad IPv4 address `a.b.c.d`. -/
def parseIPv4 (cs : List Char) : Option (ℕ × ℕ × ℕ × ℕ) :=
  match splitOnChar '.' cs with
  | [a, b, c, d] =>
      match parseOctet a, parseOctet b, parseOctet c, parseOctet d with
      | some x, some y, some z, some w => some (x, y, z, w)
      | _, _, _, _ => none
  | _ => none

/-- The prefix length after `/`: digits, no leading zero, at most 32. -/
def parsePrefixLen (cs : List Char) : Option ℕ :=
  if cs.isEmpty then none
  else if ¬ cs.all Char.isDigit then none
  else if cs.length > 1 ∧ cs.headI = '0' then none
  else if cs.length > 2 then none
  else
    let n := cs.foldl (fun acc c => acc * 10 + (c.toNat - 48)) 0
    if n ≤ 32 then some n else none

/-- Modelled from the stdlib: `ipaddress.ip_network(s, strict=False)`
restricted to IPv4 dotted-quad inputs (the forms the service's callers
use), returning `num_addresses = 2 ^ (32 - prefixlen)` when `s` parses
and `none` when the constructor would raise `ValueError`. `strict =
False` means host bits may be set, so only the shape is checked. -/
def ip_network_num_addresses (s : String) : Option ℕ :=
  match splitOnChar '/' s.toList with
  | [addr] => (parseIPv4 addr).map (fun _ => 1)
  | [addr, p] =>
      match parseIPv4 addr, parsePrefixLen p with
      | some _, some pl => some (2 ^ (32 - pl))
      | _, _ => none
  | _ => none

/-- `ScanStatus` enum from `app/device_discovery/models/discovery.py`. -/
inductive ScanStatus where
  | running
  | completed
  | failed
deriving DecidableEq

/-- `DiscoveryResponse` model (devices elided: the claim under proof
concerns creation and registration, which happen before any device is
discovered). -/
structure DiscoveryResponse where
  scan_id : String
  network : String
  scan_type : String
  status : ScanStatus
  started_at : ℕ
  completed_at : Option ℕ := none
  total_hosts : ℕ := 0
  scanned_hosts : ℕ := 0
  error_message : Option String := none
deriving DecidableEq

/-- `DiscoveryService.start_discovery_scan`: generates `scan_id`, then
validates the network with `ipaddress.ip_network(..., strict=False)` —
a `ValueError` is re-raised as `"Invalid network range: ..."` before
any state change — then rejects ranges over 1024 addresses, and only
then builds the `running` response, registers it in `active_scans` and
launches the background task. The returned pair is (raised error or
response, resulting `active_scans` table). -/
def start_discovery_scan (active_scans : List (String × DiscoveryResponse))
    (network scan_type : String) (scan_id : String) (now : ℕ) :
    PyResult DiscoveryResponse × List (String × DiscoveryResponse) :=
  match ip_network_num_addresses network with
  | none => (.exc "Invalid network range", active_scans)
  | some total =>
      if total > 1024 then
        (.exc "Network range too large. Maximum 1024 hosts allowed.", active_scans)
      else
        let resp : DiscoveryResponse :=
          { scan_id := scan_id, network := network, scan_type := scan_type,
            status := .running, started_at := now, total_hosts := total }
        (.ok resp, aset active_scans scan_id resp)

end DiscSvc

/-! ## Monitoring coordinator with result cache
(`device_monitor/service.py`) -/

namespace Svc

open Base

/-- One cache slot: the stored value and its `time.time()` timestamp,
as written by `_set_cache` (`{'data': ..., 'timestamp': ...}`). -/
structure CacheEntry (α : Type) where
  data : α
  timestamp : ℚ
deriving DecidableEq

/-- The deterministic environment a device's monitor presents during a
run: the result of the k-th probe of each kind (a probe either returns
a value or raises). `BaseMonitor.get_device_status` itself never
raises — it catches everything — but the service still guards it, so
the status channel keeps the `PyResult` shape. -/
structure MonitorEnv where
  status_probe : ℕ → PyResult DeviceStatus
  interfaces_probe : ℕ → PyResult (List InterfaceInfo)
  health_probe : ℕ → PyResult DeviceHealth

/-- `DeviceMonitoringService` state: the device→monitor map (only the
key set matters to the control flow), the per-kind caches (the nested
`self.cache[device_id][kind]` dict split by kind, the kinds being the
distinct literals `'status'`, `'interfaces'`, `'health'`), the TTL, and
an append-only log of issued probes `(device_id, kind)`, newest
first — the log models which monitor calls actually went out. -/
structure SvcState where
  monitors : List String
  cache_ttl : ℚ
  scache : List (String × CacheEntry DeviceStatus)
  icache : List (String × CacheEntry (List InterfaceInfo))
  hcache : List (String × CacheEntry DeviceHealth)
  probes : List (String × String)
deriving DecidableEq

/-- Number of probes of kind `kind` already issued for `device_id`:
indexes into the monitor environment's result sequences. -/
def probeCount (st : SvcState) (device_id kind : String) : ℕ :=
  (st.probes.filter (fun p => p = (device_id, kind))).length

/-- `DeviceMonitoringService._is_cache_valid` for one kind's map: an
entry is valid iff it exists and `now - timestamp < cache_ttl`. -/
def is_cache_valid {α : Type} (ttl now : ℚ)
    (m : List (String × CacheEntry α)) (device_id : String) : Bool :=
  match alookup m device_id with
  | none => false
  | some e => decide (now - e.timestamp < ttl)

/-- `DeviceMonitoringService._get_from_cache`: the stored data when the
entry is valid, else `None`. Expired entries are not removed. -/
def get_from_cache {α : Type} (ttl now : ℚ)
    (m : List (String × CacheEntry α)) (device_id : String) : Option α :=
  if is_cache_valid ttl now m device_id then
    (alookup m device_id).map CacheEntry.data
  else none

/-- `DeviceMonitoringService._set_cache`: store data with the current
timestamp. -/
def set_cache {α : Type} (m : List (String × CacheEntry α))
    (device_id : String) (data : α) (now : ℚ) :
    List (String × CacheEntry α) :=
  aset m device_id { data := data, timestamp := now }

/-- `DeviceMonitoringService.get_device_status`: `None` for an unknown
id; else a fresh cached status is returned as-is (the cached dict is
always non-empty, hence truthy); else the monitor is probed — a normal
result is cached and returned, an exception yields an uncached
unreachable `DeviceStatus` carrying the error text. -/
def get_device_status (env : MonitorEnv) (st : SvcState)
    (device_id : String) (now : ℚ) : Option DeviceStatus × SvcState :=
  if device_id ∈ st.monitors then
    match get_from_cache st.cache_ttl now st.scache device_id with
    | some s => (some s, st)
    | none =>
        let k := probeCount st device_id "status"
        let st' := { st with probes := (device_id, "status") :: st.probes }
        match env.status_probe k with
        | .ok s =>
            (some s, { st' with scache := set_cache st'.scache device_id s now })
        | .exc e =>
            (some { device_id := device_id, reachable := false,
                    last_seen := some now, error_message := some e }, st')
  else (none, st)

/-- `DeviceMonitoringService.get_device_interfaces`: `[]` for an
unknown id; a cached interface list is returned only when truthy — an
empty cached list is falsy in `if cached_interfaces:` and falls
through to a fresh probe; a probe exception yields `[]` uncached. -/
def get_device_interfaces (env : MonitorEnv) (st : SvcState)
    (device_id : String) (now : ℚ) : List InterfaceInfo × SvcState :=
  if device_id ∈ st.monitors then
    let cached := get_from_cache st.cache_ttl now st.icache device_id
    match cached with
    | some l =>
        if l.isEmpty then probe st device_id now else (l, st)
    | none => probe st device_id now
  else ([], st)
where
  probe (st : SvcState) (device_id : String) (now : ℚ) :
      List InterfaceInfo × SvcState :=
    let k := probeCount st device_id "interfaces"
    let st' := { st with probes := (device_id, "interfaces") :: st.probes }
    match env.interfaces_probe k with
    | .ok l =>
        (l, { st' with icache := set_cache st'.icache device_id l now })
    | .exc _ => ([], st')

/-- `DeviceMonitoringService.get_device_health`: `None` for an unknown
id; else a fresh cached health dict (always truthy) is returned; else
the monitor is probed — a normal result is cached and returned, an
exception yields a freshly constructed empty `DeviceHealth()`,
uncached. -/
def get_device_health (env : MonitorEnv) (st : SvcState)
    (device_id : String) (now : ℚ) : Option DeviceHealth × SvcState :=
  if device_id ∈ st.monitors then
    match get_from_cache st.cache_ttl now st.hcache device_id with
    | some h => (some h, st)
    | none =>
        let k := probeCount st device_id "health"
        let st' := { st with probes := (device_id, "health") :: st.probes }
        match env.health_probe k with
        | .ok h =>
            (some h, { st' with hcache := set_cache st'.hcache device_id h now })
        | .exc _ => (some DeviceHealth.empty, st')
  else (none, st)

end Svc

/-! ## Spec-side definitions used to compare the code against the
claimed rules (these two follow the specification's words, not the
source, and exist only to be diffed against the source functions). -/

/-- The device-type rule exactly as the specification words it:
SNMP + (SSH or Telnet) ⇒ router; SNMP alone ⇒ switch; SSH + (HTTP or
HTTPS) ⇒ server; SSH only with no other ports ⇒ firewall; anything
else ⇒ generic. -/
def claimedDeviceTypeRule (p : List ℕ) : String :=
  if 161 ∈ p ∧ (22 ∈ p ∨ 23 ∈ p) then "router"
  else if 161 ∈ p then "switch"
  else if 22 ∈ p ∧ (80 ∈ p ∨ 443 ∈ p) then "server"
  else if 22 ∈ p ∧ p.all (fun q => q = 22) then "firewall"
  else "generic"

/-- The confidence formula exactly as the specification words it:
0.3 base for responding, +0.3 for SNMP, +0.2 for SSH, +0.1 for Telnet,
+0.2 for HTTP/HTTPS, capped at 1.0. -/
def claimedConfidenceFormula (p : List ℕ) : ℚ :=
  min (0.3 + (if 161 ∈ p then 0.3 else 0) + (if 22 ∈ p then 0.2 else 0) +
       (if 23 ∈ p then 0.1 else 0) + (if 80 ∈ p ∨ 443 ∈ p then 0.2 else 0)) 1

/-! ## Claim theorems -/

/-- C9: the SNMP monitor converts uptime timeticks (centiseconds) to
seconds by integer division by 100 — ticks `123456` report `1234`
seconds — and interface speed from bits/second to Mbps by integer
division by 1,000,000. (For positive inputs Python's floor division
`//` agrees with `ℤ` division; zero or negative raw values are mapped
to `None` by the truthiness/positivity guards.) -/
theorem c9_snmp_unit_conversions :
    Snmp.parse_uptime 123456 = some 1234 ∧
    (∀ t : ℤ, 0 < t → Snmp.parse_uptime t = some (t / 100)) ∧
    (∀ v : ℤ, 0 < v → Snmp.parse_speed v = some (v / 1000000)) := by
  refine ⟨by decide, ?_, ?_⟩
  · intro t ht
    have hne : ¬ t = 0 := by omega
    simp only [Snmp.parse_uptime, hne, if_false]
    rw [Int.fdiv_eq_ediv t (by norm_num)]
  · intro v hv
    have hne : ¬ v = 0 := by omega
    simp only [Snmp.parse_speed, hne, if_false, hv, if_true]
    rw [Int.fdiv_eq_ediv v (by norm_num)]

/-- C9 witness: the general conversion facts applied at concrete
agent values. -/
theorem c9_witness :
    Snmp.parse_uptime 500 = some 5 ∧ Snmp.parse_speed 2000000 = some 2 := by
  constructor
  · have h := c9_snmp_unit_conversions.2.1 500 (by norm_num)
    simpa using h
  · have h := c9_snmp_unit_conversions.2.2 2000000 (by norm_num)
    simpa using h

/-- The persisted record used to exhibit the crash-recovery gap: a
scan that was `running` when the process died. -/
def c2RunningRecord : AdvDisc.ScanResult :=
  AdvDisc.mkScanResult "scan-a" "192.168.1.0/24" "ping" 100

/-- C2: the claim says a persisted `running` record is reported as
`failed` after restart. The code's `_load_scan_history` does compute
the reclassified record (`reclassify_running`), but binds it to a
local that is never stored back into `active_scans` nor rewritten to
disk, so `get_scan_status` — which falls through to the on-disk
record — still reports `status = "running"` after restart. The claim
matches the evident intent of the reclassification code; the code
drops the result. -/
theorem c2_crash_recovery_dropped :
    AdvDisc.get_scan_status (AdvDisc.load_scan_history [("scan-a", c2RunningRecord)])
      "scan-a" = some c2RunningRecord ∧
    c2RunningRecord.status = "running" ∧
    (AdvDisc.reclassify_running c2RunningRecord).status = "failed" ∧
    (AdvDisc.reclassify_running c2RunningRecord).error_message =
      some "System restart during scan" := by
  refine ⟨?_, rfl, ?_, ?_⟩ <;> decide

/-- C5 counterexample: `AdvancedDiscoveryService.start_discovery_scan`
performs no CIDR validation. On the malformed network `"not-a-cidr"`
(rejected by `ip_network`) it still creates and registers a `ScanJob`
in `running` state and returns the scan id — refuting "fails fast ...
before any ScanJob is created or registered". -/
theorem c5_counterexample :
    DiscSvc.ip_network_num_addresses "not-a-cidr" = none ∧
    (AdvDisc.start_discovery_scan ⟨[], []⟩ "not-a-cidr" "ping" "scan-b" none 0).1
      = "scan-b" ∧
    AdvDisc.get_scan_status
      (AdvDisc.start_discovery_scan ⟨[], []⟩ "not-a-cidr" "ping" "scan-b" none 0).2
      "scan-b" = some (AdvDisc.mkScanResult "scan-b" "not-a-cidr" "ping" 0) ∧
    (AdvDisc.mkScanResult "scan-b" "not-a-cidr" "ping" 0).status = "running" := by
  refine ⟨?_, rfl, ?_, rfl⟩ <;> decide

/-- C5 amended: of the two cited `startScan` implementations, only
`DiscoveryService.start_discovery_scan` (device_discovery) validates
the CIDR — a malformed network raises a validation error synchronously
with no job created or registered, and a well-formed network of at
most 1024 addresses registers a `running` job and returns it —
whereas `AdvancedDiscoveryService.start_discovery_scan` registers a
`running` job and returns its scan id for every input, malformed or
not, deferring any failure to the background task. -/
theorem c5_validation_split :
    (∀ (active : List (String × DiscSvc.DiscoveryResponse)) network scan_type scan_id now,
       DiscSvc.ip_network_num_addresses network = none →
       DiscSvc.start_discovery_scan active network scan_type scan_id now =
         (.exc "Invalid network range", active)) ∧
    (∀ (active : List (String × DiscSvc.DiscoveryResponse)) network scan_type scan_id now total,
       DiscSvc.ip_network_num_addresses network = some total → total ≤ 1024 →
       ∃ resp, DiscSvc.start_discovery_scan active network scan_type scan_id now =
           (.ok resp, aset active scan_id resp) ∧
         resp.status = .running ∧ resp.scan_id = scan_id ∧ resp.total_hosts = total) ∧
    (∀ (st : AdvDisc.AdvState) network scan_type scan_id scan_name now,
       (AdvDisc.start_discovery_scan st network scan_type scan_id scan_name now).1 = scan_id ∧
       alookup (AdvDisc.start_discovery_scan st network scan_type scan_id scan_name now).2.active_scans
           scan_id =
         some { AdvDisc.mkScanResult scan_id network scan_type now with scan_name := scan_name } ∧
       ({ AdvDisc.mkScanResult scan_id network scan_type now with
          scan_name := scan_name } : AdvDisc.ScanResult).status = "running") := by
  refine ⟨?_, ?_, ?_⟩
  · intro active network scan_type scan_id now hnone
    simp [DiscSvc.start_discovery_scan, hnone]
  · intro active network scan_type scan_id now total hsome hle
    refine ⟨{ scan_id := scan_id, network := network, scan_type := scan_type,
              status := .running, started_at := now, total_hosts := total },
            ?_, rfl, rfl, rfl⟩
    simp [DiscSvc.start_discovery_scan, hsome, Nat.not_lt.mpr hle]
  · intro st network scan_type scan_id scan_name now
    refine ⟨rfl, ?_, rfl⟩
    simp [AdvDisc.start_discovery_scan, alookup_aset_self]

/-- C5 witness: the validating service accepts `10.0.0.0/30`
(4 addresses) and registers it running. -/
theorem c5_witness :
    ∃ resp, DiscSvc.start_discovery_scan [] "10.0.0.0/30" "ping" "scan-c" 7 =
        (.ok resp, aset [] "scan-c" resp) ∧
      resp.status = .running ∧ resp.scan_id = "scan-c" ∧ resp.total_hosts = 4 :=
  c5_validation_split.2.1 [] "10.0.0.0/30" "ping" "scan-c" 7 4 (by decide) (by norm_num)

/-- C4 counterexample: on open ports `{22, 23}` (SSH and Telnet, no
SNMP, no HTTP) the claimed rule yields `generic` ("SSH only with no
other ports ⇒ firewall; anything else ⇒ generic"), but the code's
firewall branch fires whenever SSH is open and at most two ports are
open, so the classifier returns `firewall`. -/
theorem c4_counterexample :
    AdvDisc.guess_device_type_from_ports [22, 23] = "firewall" ∧
    claimedDeviceTypeRule [22, 23] = "generic" ∧
    AdvDisc.guess_device_type_from_ports [22, 23] ≠ claimedDeviceTypeRule [22, 23] := by
  refine ⟨?_, ?_, ?_⟩ <;> decide

/-- C4 amended: the actual port-only rules of the two classifiers.
`AdvancedDiscoveryService._guess_device_type_from_ports`: SNMP +
(SSH or Telnet) ⇒ router; SNMP alone ⇒ switch; else HTTP or HTTPS open
⇒ server (no SSH required); else SSH open with at most two open ports
⇒ firewall; else generic. `NetworkDiscovery._detect_device_type` (no
system description): same SNMP cases; else SSH + (HTTP or HTTPS) ⇒
server; else generic (no firewall case). Ports `{161, 22}` yield
router with suggested protocols ⊇ {snmp, ssh} in both; `{80, 443}`
alone yield server in the first classifier but generic in the
second. -/
theorem c4_classifier_characterization :
    (∀ p : List ℕ,
      (161 ∈ p → (22 ∈ p ∨ 23 ∈ p) → AdvDisc.guess_device_type_from_ports p = "router") ∧
      (161 ∈ p → 22 ∉ p → 23 ∉ p → AdvDisc.guess_device_type_from_ports p = "switch") ∧
      (161 ∉ p → 80 ∈ p ∨ 443 ∈ p → AdvDisc.guess_device_type_from_ports p = "server") ∧
      (161 ∉ p → 80 ∉ p → 443 ∉ p → 22 ∈ p → p.length ≤ 2 →
        AdvDisc.guess_device_type_from_ports p = "firewall") ∧
      (161 ∉ p → 80 ∉ p → 443 ∉ p → (22 ∉ p ∨ 2 < p.length) →
        AdvDisc.guess_device_type_from_ports p = "generic")) ∧
    (∀ ps : List (ℕ × Bool),
      (DMDiscovery.portOpen ps 161 = true →
        (DMDiscovery.portOpen ps 22 = true ∨ DMDiscovery.portOpen ps 23 = true) →
        DMDiscovery.detect_device_type ps none = "router") ∧
      (DMDiscovery.portOpen ps 161 = true → DMDiscovery.portOpen ps 22 = false →
        DMDiscovery.portOpen ps 23 = false →
        DMDiscovery.detect_device_type ps none = "switch") ∧
      (DMDiscovery.portOpen ps 161 = false → DMDiscovery.portOpen ps 22 = true →
        (DMDiscovery.portOpen ps 80 = true ∨ DMDiscovery.portOpen ps 443 = true) →
        DMDiscovery.detect_device_type ps none = "server") ∧
      (DMDiscovery.portOpen ps 161 = false → DMDiscovery.portOpen ps 22 = false →
        DMDiscovery.detect_device_type ps none = "generic") ∧
      (DMDiscovery.portOpen ps 161 = false → DMDiscovery.portOpen ps 80 = false →
        DMDiscovery.portOpen ps 443 = false →
        DMDiscovery.detect_device_type ps none = "generic")) ∧
    (AdvDisc.guess_device_type_from_ports [161, 22] = "router" ∧
     "snmp" ∈ AdvDisc.suggest_protocols_from_ports [161, 22] ∧
     "ssh" ∈ AdvDisc.suggest_protocols_from_ports [161, 22] ∧
     AdvDisc.guess_device_type_from_ports [80, 443] = "server" ∧
     DMDiscovery.detect_device_type [(161, true), (22, true)] none = "router" ∧
     "snmp" ∈ DMDiscovery.suggest_protocols [(161, true), (22, true)] false ∧
     "ssh" ∈ DMDiscovery.suggest_protocols [(161, true), (22, true)] false ∧
     DMDiscovery.detect_device_type [(80, true), (443, true)] none = "generic") := by
  refine ⟨?_, ?_, by decide⟩
  · intro p
    refine ⟨?_, ?_, ?_, ?_, ?_⟩
    · intro h161 hor
      simp [AdvDisc.guess_device_type_from_ports, h161, hor]
    · intro h161 h22 h23
      simp [AdvDisc.guess_device_type_from_ports, h161, h22, h23]
    · intro h161 hor
      simp [AdvDisc.guess_device_type_from_ports, h161, hor]
    · intro h161 h80 h443 h22 hlen
      simp [AdvDisc.guess_device_type_from_ports, h161, h80, h443, h22, hlen]
    · intro h161 h80 h443 hor
      rcases hor with h22 | hlen
      · simp [AdvDisc.guess_device_type_from_ports, h161, h80, h443, h22]
      · have hnot : ¬ p.length ≤ 2 := by omega
        simp [AdvDisc.guess_device_type_from_ports, h161, h80, h443, hnot]
  · intro ps
    refine ⟨?_, ?_, ?_, ?_, ?_⟩
    · intro h161 hor
      rcases hor with h | h <;>
        simp [DMDiscovery.detect_device_type, DMDiscovery.detect_device_type.fallback,
              h161, h]
    · intro h161 h22 h23
      simp [DMDiscovery.detect_device_type, DMDiscovery.detect_device_type.fallback,
            h161, h22, h23]
    · intro h161 h22 hor
      rcases hor with h | h <;>
        simp [DMDiscovery.detect_device_type, DMDiscovery.detect_device_type.fallback,
              h161, h22, h]
    · intro h161 h22
      simp [DMDiscovery.detect_device_type, DMDiscovery.detect_device_type.fallback,
            h161, h22]
    · intro h161 h80 h443
      simp [DMDiscovery.detect_device_type, DMDiscovery.detect_device_type.fallback,
            h161, h80, h443]

/-- C4 witness: the router rule applied to ports `{161, 23}`. -/
theorem c4_witness :
    AdvDisc.guess_device_type_from_ports [161, 23] = "router" :=
  (c4_classifier_characterization.1 [161, 23]).1 (by decide) (Or.inr (by decide))

/-- C7 counterexample: a responding host with no open ports gets
confidence `0.2` from the code's early return, while the claimed
formula (`0.3` base for responding, no bonuses) gives `0.3`. -/
theorem c7_counterexample :
    AdvDisc.calculate_confidence_from_ports [] = 0.2 ∧
    claimedConfidenceFormula [] = 0.3 ∧
    AdvDisc.calculate_confidence_from_ports [] ≠ claimedConfidenceFormula [] := by
  refine ⟨rfl, ?_, ?_⟩ <;>
    norm_num [claimedConfidenceFormula, AdvDisc.calculate_confidence_from_ports]

/-- C7 amended: for every nonempty open-port set the confidence equals
the claimed accumulation `min(0.3 + bonuses, 1.0)`; the empty set gets
the early-return value `0.2`; and every value the function produces
lies in `[0, 1]`. -/
theorem c7_confidence_characterization :
    ∀ p : List ℕ,
      (p ≠ [] → AdvDisc.calculate_confidence_from_ports p = claimedConfidenceFormula p) ∧
      (p = [] → AdvDisc.calculate_confidence_from_ports p = 0.2) ∧
      0 ≤ AdvDisc.calculate_confidence_from_ports p ∧
      AdvDisc.calculate_confidence_from_ports p ≤ 1 := by
  intro p
  refine ⟨?_, ?_, ?_⟩
  · intro h
    cases p with
    | nil => exact absurd rfl h
    | cons a l => rfl
  · intro h
    subst h
    rfl
  · cases p with
    | nil =>
        norm_num [AdvDisc.calculate_confidence_from_ports]
    | cons a l =>
        have hf : AdvDisc.calculate_confidence_from_ports (a :: l) =
            claimedConfidenceFormula (a :: l) := rfl
        rw [hf]
        unfold claimedConfidenceFormula
        have h1 : (0:ℚ) ≤ if 161 ∈ a :: l then (0.3:ℚ) else 0 := by split <;> norm_num
        have h2 : (0:ℚ) ≤ if 22 ∈ a :: l then (0.2:ℚ) else 0 := by split <;> norm_num
        have h3 : (0:ℚ) ≤ if 23 ∈ a :: l then (0.1:ℚ) else 0 := by split <;> norm_num
        have h4 : (0:ℚ) ≤ if 80 ∈ a :: l ∨ 443 ∈ a :: l then (0.2:ℚ) else 0 := by
          split <;> norm_num
        constructor
        · refine le_min (by linarith) (by norm_num)
        · exact min_le_right _ _

/-- C7 witness: the accumulation formula applied to ports `{161, 22}`
(0.3 + 0.3 + 0.2 = 0.8). -/
theorem c7_witness :
    AdvDisc.calculate_confidence_from_ports [161, 22] = 0.8 := by
  have h := (c7_confidence_characterization [161, 22]).1 (by decide)
  rw [h]
  norm_num [claimedConfidenceFormula]

/-- The monitor behaviour exhibiting C1's failure mode: connectivity
test succeeds, then the health sub-call raises. -/
def c1CexBehavior : Base.MonitorBehavior :=
  { test_connection := .ok true,
    get_health_metrics := .exc "SNMP walk timeout",
    get_interfaces := .ok [] }

/-- C1 counterexample: with `test_connection` returning `True` and
`get_health_metrics` raising, `get_device_status` returns `reachable =
False` with the error text — not the claimed degraded-but-reachable
status — because the sub-calls sit inside the same `try` as the
connectivity test and the shared handler builds an unreachable
status. -/
theorem c1_counterexample :
    (Base.get_device_status "core-sw-1" c1CexBehavior 5 1000).reachable = false ∧
    (Base.get_device_status "core-sw-1" c1CexBehavior 5 1000).reachable ≠ true ∧
    (Base.get_device_status "core-sw-1" c1CexBehavior 5 1000).error_message =
      some "SNMP walk timeout" := by
  refine ⟨rfl, ?_, rfl⟩
  decide

/-- C1 amended: if the initial `testConnection` succeeds but a
subsequent `getHealthMetrics` or `getInterfaces` call raises, the
exception is caught (not propagated) and recorded in `errorMessage`,
but the returned `DeviceStatus` has `reachable = false` with health
absent and interfaces empty — the device is reported as unreachable,
not as degraded-but-reachable. -/
theorem c1_subcall_exception_reports_unreachable
    (id : String) (m : Base.MonitorBehavior) (rt now : ℚ) (e : String)
    (htest : m.test_connection = .ok true)
    (hsub : m.get_health_metrics = .exc e ∨
            ∃ h, m.get_health_metrics = .ok h ∧ m.get_interfaces = .exc e) :
    Base.get_device_status id m rt now =
      { device_id := id, reachable := false, response_time := some rt,
        last_seen := some now, error_message := some e } := by
  rcases hsub with h | ⟨hh, hok, hi⟩
  · simp [Base.get_device_status, htest, h]
  · simp [Base.get_device_status, htest, hok, hi]

/-- C1 witness: the amended statement applied to a monitor whose
interface walk raises after a successful connectivity test. -/
theorem c1_witness :
    Base.get_device_status "fw-2"
      { test_connection := .ok true, get_health_metrics := .ok {},
        get_interfaces := .exc "ssh channel closed" } 3 9 =
      { device_id := "fw-2", reachable := false, response_time := some 3,
        last_seen := some 9, error_message := some "ssh channel closed" } :=
  c1_subcall_exception_reports_unreachable "fw-2" _ 3 9 "ssh channel closed" rfl
    (Or.inr ⟨{}, rfl, rfl⟩)

/-- Sum of the backoff delays `1, 2, 4, ...` over `m` sleeps in closed
form. -/
theorem geom_sum_two_pow (m : ℕ) : ∑ i ∈ Finset.range m, 2 ^ i = 2 ^ m - 1 := by
  induction m with
  | zero => simp
  | succ k ih =>
      rw [Finset.sum_range_succ, ih]
      have h1 : 1 ≤ 2 ^ k := Nat.one_le_pow k 2 (by norm_num)
      have h2 : 2 ^ (k + 1) = 2 ^ k * 2 := pow_succ 2 k
      omega

/-- Invariant of the retry loop on the all-fail-then-succeed path:
from attempt `attempt` (with `rem` attempts left out of `rc`), if every
attempt before the last raises and the last returns `a`, the loop
returns `a` having added `2 ^ attempt + ... + 2 ^ (rc - 2)` of sleep. -/
theorem retry_go_success_spec {α : Type} (op : ℕ → PyResult α) (rc : ℕ) (a : α) :
    ∀ rem attempt slept, attempt + rem = rc → 1 ≤ rem →
    (∀ i, attempt ≤ i → i < rc - 1 → (op i).isExc = true) →
    op (rc - 1) = .ok a →
    Base.retry_go op rc attempt slept =
      .success a (slept + (2 ^ (rc - 1) - 2 ^ attempt)) := by
  intro rem
  induction rem with
  | zero => intro attempt slept hsum hge; omega
  | succ r ih =>
      intro attempt slept hsum _ hfail hok
      by_cases hr : r = 0
      · subst hr
        have ha : attempt = rc - 1 := by omega
        unfold Base.retry_go
        rw [ha, hok]
        simp
      · have hlt : attempt < rc - 1 := by omega
        have hex := hfail attempt (le_refl _) hlt
        obtain ⟨e, he⟩ : ∃ e, op attempt = .exc e := by
          cases hop : op attempt with
          | ok a' => rw [hop] at hex; simp [PyResult.isExc] at hex
          | exc e => exact ⟨e, rfl⟩
        unfold Base.retry_go
        simp only [he]
        rw [dif_pos hlt,
            ih (attempt + 1) (slept + 2 ^ attempt) (by omega) (by omega)
              (fun i hi hi2 => hfail i (by omega) hi2) hok]
        have hpow : 2 ^ (attempt + 1) ≤ 2 ^ (rc - 1) :=
          Nat.pow_le_pow_right (by norm_num) (by omega)
        have hps : 2 ^ (attempt + 1) = 2 ^ attempt * 2 := pow_succ 2 attempt
        congr 1
        omega

/-- Invariant of the retry loop on the all-fail path: every attempt
raises, so the loop re-raises the final attempt's error after the same
accumulated backoff sleep. -/
theorem retry_go_failure_spec {α : Type} (op : ℕ → PyResult α) (rc : ℕ) (e : String) :
    ∀ rem attempt slept, attempt + rem = rc → 1 ≤ rem →
    (∀ i, attempt ≤ i → i < rc - 1 → (op i).isExc = true) →
    op (rc - 1) = .exc e →
    Base.retry_go op rc attempt slept =
      .failure e (slept + (2 ^ (rc - 1) - 2 ^ attempt)) := by
  intro rem
  induction rem with
  | zero => intro attempt slept hsum hge; omega
  | succ r ih =>
      intro attempt slept hsum _ hfail hlast
      by_cases hr : r = 0
      · subst hr
        have ha : attempt = rc - 1 := by omega
        unfold Base.retry_go
        rw [ha]
        simp only [hlast]
        rw [dif_neg (lt_irrefl _)]
        simp
      · have hlt : attempt < rc - 1 := by omega
        have hex := hfail attempt (le_refl _) hlt
        obtain ⟨e', he⟩ : ∃ e', op attempt = .exc e' := by
          cases hop : op attempt with
          | ok a' => rw [hop] at hex; simp [PyResult.isExc] at hex
          | exc e' => exact ⟨e', rfl⟩
        unfold Base.retry_go
        simp only [he]
        rw [dif_pos hlt,
            ih (attempt + 1) (slept + 2 ^ attempt) (by omega) (by omega)
              (fun i hi hi2 => hfail i (by omega) hi2) hlast]
        have hpow : 2 ^ (attempt + 1) ≤ 2 ^ (rc - 1) :=
          Nat.pow_le_pow_right (by norm_num) (by omega)
        have hps : 2 ^ (attempt + 1) = 2 ^ attempt * 2 := pow_succ 2 attempt
        congr 1
        omega

/-- C8: under `_retry_operation` with `retryCount = n ≥ 1`, the delay
slept after failed attempt `i` is `2^i` seconds (1s, 2s, 4s, ...); an
operation failing its first `n - 1` attempts and succeeding on the
n-th yields the successful value having slept exactly
`1 + 2 + ... + 2^(n-2) = 2^(n-1) - 1` seconds — the sum of the backoff
delays, a lower bound on total elapsed time — and if all `n` attempts
fail, the last attempt's error is re-raised with the same total sleep,
not swallowed. -/
theorem c8_retry_backoff {α : Type} (op : ℕ → PyResult α) (n : ℕ) (hn : 1 ≤ n)
    (hfail : ∀ i, i < n - 1 → (op i).isExc = true) :
    (∀ a, op (n - 1) = .ok a →
       Base.retry_operation op n = .success a (∑ i ∈ Finset.range (n - 1), 2 ^ i)) ∧
    (∀ e, op (n - 1) = .exc e →
       Base.retry_operation op n = .failure e (∑ i ∈ Finset.range (n - 1), 2 ^ i)) := by
  constructor
  · intro a hok
    have h := retry_go_success_spec op n a n 0 0 (by omega) hn
      (fun i _ hi2 => hfail i hi2) hok
    rw [Base.retry_operation, h, geom_sum_two_pow]
    simp
  · intro e hlast
    have h := retry_go_failure_spec op n e n 0 0 (by omega) hn
      (fun i _ hi2 => hfail i hi2) hlast
    rw [Base.retry_operation, h, geom_sum_two_pow]
    simp

/-- The operation used to witness C8: raises on its first two
attempts, succeeds on the third. -/
def c8WitnessOp : ℕ → PyResult ℕ :=
  fun i => if i < 2 then .exc "transient" else .ok 42

/-- C8 witness: with `retryCount = 3`, two failures then a success
yield the value with `1 + 2 = 3` seconds of backoff sleep. -/
theorem c8_witness : Base.retry_operation c8WitnessOp 3 = .success 42 3 := by
  have h := (c8_retry_backoff c8WitnessOp 3 (by norm_num) (by decide)).1 42 (by decide)
  have hs : (∑ i ∈ Finset.range (3 - 1), 2 ^ i) = 3 := by decide
  rw [hs] at h
  exact h

/-- C10: for a device id present in the monitor map,
`get_device_health` never returns `None`: on a monitor exception (with
no fresh cache entry) it returns a freshly constructed empty
`DeviceHealth` — every metric field unset, the same value a reachable
device exposing no metrics would produce — and `None` is returned
exactly for ids absent from the monitor map. -/
theorem c10_health_never_absent (env : Svc.MonitorEnv) (st : Svc.SvcState)
    (id : String) (now : ℚ) :
    (id ∈ st.monitors →
       (Svc.get_device_health env st id now).1.isSome = true ∧
       (∀ e, Svc.get_from_cache st.cache_ttl now st.hcache id = none →
          env.health_probe (Svc.probeCount st id "health") = .exc e →
          (Svc.get_device_health env st id now).1 = some Base.DeviceHealth.empty)) ∧
    (id ∉ st.monitors → (Svc.get_device_health env st id now).1 = none) := by
  constructor
  · intro hmem
    constructor
    · unfold Svc.get_device_health
      rw [if_pos hmem]
      cases hc : Svc.get_from_cache st.cache_ttl now st.hcache id with
      | some h => simp
      | none =>
          cases hp : env.health_probe (Svc.probeCount st id "health") <;> simp [hp]
    · intro e hc hp
      simp [Svc.get_device_health, hmem, hc, hp]
  · intro hmem
    simp [Svc.get_device_health, hmem]

/-- The environment used to witness C10: the health probe raises. -/
def c10Env : Svc.MonitorEnv :=
  { status_probe := fun _ => .ok { device_id := "d", reachable := true },
    interfaces_probe := fun _ => .ok [],
    health_probe := fun _ => .exc "snmp timeout" }

/-- The initial service state used to witness C10: one known device,
empty caches. -/
def c10State : Svc.SvcState :=
  { monitors := ["d"], cache_ttl := 300, scache := [], icache := [],
    hcache := [], probes := [] }

/-- C10 witness: the health probe raising on a known device still
yields `Some` of the empty `DeviceHealth`. -/
theorem c10_witness :
    (Svc.get_device_health c10Env c10State "d" 0).1 = some Base.DeviceHealth.empty :=
  ((c10_health_never_absent c10Env c10State "d" 0).1 (by decide)).2
    "snmp timeout" rfl rfl

theorem aset_aset {α : Type} (l : List (String × α)) (k : String) (v w : α) :
    aset (aset l k v) k w = aset l k w := by
  induction l with
  | nil => simp [aset]
  | cons hd tl ih =>
      obtain ⟨k0, v0⟩ := hd
      by_cases h0 : k0 = k
      · simp [aset, h0]
      · simp [aset, h0, ih]

theorem aremove_aset_of_none {α : Type} (l : List (String × α)) (k : String) (v : α)
    (h : alookup l k = none) : aremove (aset l k v) k = l := by
  induction l with
  | nil => simp [aset, aremove]
  | cons hd tl ih =>
      obtain ⟨k0, v0⟩ := hd
      by_cases h0 : k0 = k
      · simp [alookup, h0] at h
      · simp [alookup, h0] at h
        simp [aset, h0, aremove, ih h]

/-- Intermediate states of the concrete failed-scan run that exhibits
C6's counterexample: a scan started with `save_results = False` whose
background task raises. -/
def c6St1 : AdvDisc.AdvState :=
  (AdvDisc.start_discovery_scan ⟨[], []⟩ "10.0.0.0/24" "ping" "scan-d" none 1).2

def c6St2 : AdvDisc.AdvState :=
  AdvDisc.finish_scan c6St1 "scan-d" (.exc "boom") false 5

def c6St3 : AdvDisc.AdvState :=
  AdvDisc.cleanup_after_failure c6St2 "scan-d"

/-- The terminal record of that run. -/
def c6FailedRecord : AdvDisc.ScanResult :=
  AdvDisc.execute_scan_result (AdvDisc.mkScanResult "scan-d" "10.0.0.0/24" "ping" 1)
    (.exc "boom") 5

/-- C6 counterexample: a scan started with `save_results = False` that
fails reaches the terminal `failed` record, but after the
grace-period eviction from `active_scans` there is no persisted copy,
so a later `get_scan_status` returns `None` instead of the unchanged
terminal record — refuting "repeated getScanStatus calls thereafter
return an unchanged record" as a property of every scan job. -/
theorem c6_counterexample :
    AdvDisc.get_scan_status c6St2 "scan-d" = some c6FailedRecord ∧
    c6FailedRecord.status = "failed" ∧
    AdvDisc.get_scan_status c6St3 "scan-d" = none := by
  refine ⟨?_, rfl, ?_⟩ <;> decide

/-- C6 amended: every scan job starts `running` and its terminal
update sets exactly one of `completed`/`failed`; the owning task never
mutates a terminal record again; and provided the job was started with
`save_results = True` (the API default), `get_scan_status` returns the
unchanged terminal record both right after termination and after the
failure-path eviction from the active table (served from disk). With
`save_results = False` the record can disappear after eviction, as the
counterexample shows. -/
theorem c6_scan_state_machine (st : AdvDisc.AdvState)
    (network scan_type scan_id : String) (scan_name : Option String)
    (now fin : ℕ) (outcome : PyResult (ℕ × ℕ × List AdvDisc.DiscDevice))
    (hfresh : alookup st.active_scans scan_id = none) :
    ({ AdvDisc.mkScanResult scan_id network scan_type now with
       scan_name := scan_name } : AdvDisc.ScanResult).status = "running" ∧
    (∀ r : AdvDisc.ScanResult,
       (AdvDisc.execute_scan_result r outcome fin).status = "completed" ∨
       (AdvDisc.execute_scan_result r outcome fin).status = "failed") ∧
    AdvDisc.get_scan_status
        (AdvDisc.finish_scan
          (AdvDisc.start_discovery_scan st network scan_type scan_id scan_name now).2
          scan_id outcome true fin) scan_id =
      some (AdvDisc.execute_scan_result
        { AdvDisc.mkScanResult scan_id network scan_type now with
          scan_name := scan_name } outcome fin) ∧
    AdvDisc.get_scan_status
        (AdvDisc.cleanup_after_failure
          (AdvDisc.finish_scan
            (AdvDisc.start_discovery_scan st network scan_type scan_id scan_name now).2
            scan_id outcome true fin) scan_id) scan_id =
      some (AdvDisc.execute_scan_result
        { AdvDisc.mkScanResult scan_id network scan_type now with
          scan_name := scan_name } outcome fin) := by
  refine ⟨rfl, ?_, ?_, ?_⟩
  · intro r
    cases outcome with
    | ok v => left; rfl
    | exc e => right; rfl
  · simp [AdvDisc.start_discovery_scan, AdvDisc.finish_scan, AdvDisc.get_scan_status,
          alookup_aset_self, aset_aset]
  · simp [AdvDisc.start_discovery_scan, AdvDisc.finish_scan, AdvDisc.get_scan_status,
          AdvDisc.cleanup_after_failure, alookup_aset_self, aset_aset,
          aremove_aset_of_none _ _ _ hfresh, hfresh]

/-- C6 witness: a successful run started on a fresh table with
`save_results = True`: the completed record is served unchanged. -/
theorem c6_witness :
    AdvDisc.get_scan_status
        (AdvDisc.finish_scan
          (AdvDisc.start_discovery_scan ⟨[], []⟩ "10.0.0.0/30" "ping" "scan-e" none 1).2
          "scan-e" (.ok (2, 2, [])) true 9) "scan-e" =
      some (AdvDisc.execute_scan_result
        { AdvDisc.mkScanResult "scan-e" "10.0.0.0/30" "ping" 1 with
          scan_name := none } (.ok (2, 2, [])) 9) :=
  (c6_scan_state_machine ⟨[], []⟩ "10.0.0.0/30" "ping" "scan-e" none 1 9
    (.ok (2, 2, [])) rfl).2.2.1

/-- The monitor environment for C3's runs: the status probe always
succeeds with a fixed status, the interface probe always returns an
empty interface list. -/
def c3Env : Svc.MonitorEnv :=
  { status_probe := fun _ => .ok { device_id := "d", reachable := true },
    interfaces_probe := fun _ => .ok [],
    health_probe := fun _ => .ok {} }

/-- Initial coordinator state for C3's runs: one known device, TTL
300 seconds, empty caches, no probes issued yet. -/
def c3State : Svc.SvcState :=
  { monitors := ["d"], cache_ttl := 300, scache := [], icache := [],
    hcache := [], probes := [] }

/-- C3 counterexample: a device whose interface walk returns an empty
list. Two `get_device_interfaces` calls one second apart (well inside
the 300 s TTL) issue two monitor probes, because the cached empty list
is falsy in `if cached_interfaces:` and is treated as a miss — the
claim's "without a second monitor probe being issued" fails for
`getDeviceInterfaces`. -/
theorem c3_counterexample :
    (1 : ℚ) - 0 < c3State.cache_ttl ∧
    (Svc.get_device_interfaces c3Env
        ((Svc.get_device_interfaces c3Env c3State "d" 0).2) "d" 1).2.probes =
      [("d", "interfaces"), ("d", "interfaces")] := by
  constructor
  · norm_num [c3State]
  · norm_num [c3Env, c3State, Svc.get_device_interfaces,
              Svc.get_device_interfaces.probe, Svc.get_from_cache,
              Svc.is_cache_valid, Svc.set_cache, Svc.probeCount, alookup, aset]

/-- C3 amended: the TTL cache behaves as claimed for `getDeviceStatus`
and for `getDeviceInterfaces` with a non-empty result, and validity is
exactly `now - storedAt < ttl` with expired entries treated as absent
while remaining in the map; the exception is a cached *empty*
interface list, which the truthiness test treats as a miss (see the
counterexample). Part 1: a status cache miss issues exactly one probe
and a second call within the TTL window returns the identical value
with no further probe and no state change. Part 2: the same for
interfaces when the probed list is non-empty. Part 3: the validity
predicate and lazy invalidation. -/
theorem c3_cache_semantics (env : Svc.MonitorEnv) (st : Svc.SvcState) (id : String)
    (t1 t2 : ℚ) (hmem : id ∈ st.monitors) (hwin : t2 - t1 < st.cache_ttl) :
    (∀ s, Svc.get_from_cache st.cache_ttl t1 st.scache id = none →
       env.status_probe (Svc.probeCount st id "status") = .ok s →
       (Svc.get_device_status env st id t1).1 = some s ∧
       (Svc.get_device_status env st id t1).2.probes = (id, "status") :: st.probes ∧
       Svc.get_device_status env (Svc.get_device_status env st id t1).2 id t2 =
         (some s, (Svc.get_device_status env st id t1).2)) ∧
    (∀ l, Svc.get_from_cache st.cache_ttl t1 st.icache id = none →
       env.interfaces_probe (Svc.probeCount st id "interfaces") = .ok l → l ≠ [] →
       (Svc.get_device_interfaces env st id t1).1 = l ∧
       (Svc.get_device_interfaces env st id t1).2.probes =
         (id, "interfaces") :: st.probes ∧
       Svc.get_device_interfaces env (Svc.get_device_interfaces env st id t1).2 id t2 =
         (l, (Svc.get_device_interfaces env st id t1).2)) ∧
    (∀ (α : Type) (m : List (String × Svc.CacheEntry α)) (now : ℚ),
       (Svc.is_cache_valid st.cache_ttl now m id = true ↔
         ∃ e, alookup m id = some e ∧ now - e.timestamp < st.cache_ttl) ∧
       (∀ e, alookup m id = some e → ¬ now - e.timestamp < st.cache_ttl →
         Svc.get_from_cache st.cache_ttl now m id = none ∧
         alookup m id = some e)) := by
  refine ⟨?_, ?_, ?_⟩
  · intro s hc hp
    have h1 : Svc.get_device_status env st id t1 =
        (some s, { st with
                   probes := (id, "status") :: st.probes,
                   scache := Svc.set_cache st.scache id s t1 }) := by
      simp [Svc.get_device_status, hmem, hc, hp]
    have hvalid : Svc.get_from_cache st.cache_ttl t2
        (Svc.set_cache st.scache id s t1) id = some s := by
      simp [Svc.get_from_cache, Svc.is_cache_valid, Svc.set_cache,
            alookup_aset_self, hwin]
    refine ⟨by rw [h1], by rw [h1], ?_⟩
    rw [h1]
    simp [Svc.get_device_status, hmem, hvalid]
  · intro l hc hp hne
    have hle : l.isEmpty = false := by
      cases l with
      | nil => exact absurd rfl hne
      | cons a t => rfl
    have h1 : Svc.get_device_interfaces env st id t1 =
        (l, { st with
              probes := (id, "interfaces") :: st.probes,
              icache := Svc.set_cache st.icache id l t1 }) := by
      simp [Svc.get_device_interfaces, Svc.get_device_interfaces.probe,
            hmem, hc, hp]
    have hvalid : Svc.get_from_cache st.cache_ttl t2
        (Svc.set_cache st.icache id l t1) id = some l := by
      simp [Svc.get_from_cache, Svc.is_cache_valid, Svc.set_cache,
            alookup_aset_self, hwin]
    refine ⟨by rw [h1], by rw [h1], ?_⟩
    rw [h1]
    simp [Svc.get_device_interfaces, hmem, hvalid, hle]
  · intro α m now
    constructor
    · unfold Svc.is_cache_valid
      cases halo : alookup m id with
      | none => simp
      | some e => simp [Option.some.injEq]
    · intro e he hexp
      refine ⟨?_, he⟩
      simp [Svc.get_from_cache, Svc.is_cache_valid, he, hexp]

/-- C3 witness: the status idempotence applied to the concrete
environment and initial state — the second call one second later
returns the cached status with no state change. -/
theorem c3_witness :
    Svc.get_device_status c3Env ((Svc.get_device_status c3Env c3State "d" 0).2) "d" 1 =
      (some { device_id := "d", reachable := true },
       (Svc.get_device_status c3Env c3State "d" 0).2) :=
  ((c3_cache_semantics c3Env c3State "d" 0 1 (by decide) (by norm_num [c3State])).1
    { device_id := "d", reachable := true } rfl rfl).2.2
